import Mathlib

/-!
Verification development for the depccg A* CCG parser front-end
(`src/depccg/parser.pyx`).  The Cython/Python wrapper code is embedded
shallowly: numpy score matrices become `List (List ℤ)` (the two constants the
code writes, `-10e10` and `0`, are exactly integer-valued, so integer entries
embed the float arrays without rounding concerns), in-place numpy mutation
becomes explicit state passing, exceptions become `Except`/`Option`, and the
native `ParseSentences` engine (not part of the sources) is modelled from the
spec where a claim needs it.
-/

namespace Depccg

/-- A score matrix (numpy 2-d array) embedded as a list of rows. -/
abbrev Mat := List (List ℤ)

/-- The numpy `.shape` of a (rectangular) matrix: `(rows, cols)`. -/
def shape (m : Mat) : Nat × Nat := (m.length, (m.headD []).length)

/-- The Python literal `-10e10` from `build_terminal_constraints`
(`pseudo_neginf = -10e10`), i.e. `-(10 * 10^10) = -10^11`. -/
def pseudo_neginf : ℤ := -(10 * 10 ^ 10)

/-- `tag_dict = {tag: i for i, tag in enumerate(tag_list)}` followed by the
lookup `tag_dict[cat]`: the index of the LAST occurrence of `cat` in
`tag_list` (later dict entries overwrite earlier ones), `none` when absent
(Python raises `KeyError`). -/
def tag_dict_find {Cat : Type} [DecidableEq Cat] (tag_list : List Cat) (cat : Cat) :
    Option Nat :=
  ((tag_list.enum).reverse.find? (fun p => p.2 = cat)).map Prod.fst

/-- One iteration of the loop body of `build_terminal_constraints`:
`cat_index = tag_dict[cat]; tag_probs[i, :] = pseudo_neginf;
tag_probs[i, cat_index] = 0`.  `none` embeds the Python `KeyError`
(category not in `tag_list`) and numpy `IndexError` (row or column index out
of range). -/
def applyTerminalConstraint {Cat : Type} [DecidableEq Cat] (tag_list : List Cat)
    (tag_probs : Mat) (cx : Cat × Nat) : Option Mat :=
  match tag_dict_find tag_list cx.1 with
  | none => none
  | some cat_index =>
    match tag_probs.get? cx.2 with
    | none => none
    | some row =>
      if cat_index < row.length then
        some (tag_probs.set cx.2 ((row.map (fun _ => pseudo_neginf)).set cat_index 0))
      else
        none

/-- `build_terminal_constraints(constraints, tag_probs, tag_list)`
(`parser.pyx` lines 40-47): folds the constraint list over the matrix,
returning the (mutated) matrix. -/
def build_terminal_constraints {Cat : Type} [DecidableEq Cat]
    (constraints : List (Cat × Nat)) (tag_probs : Mat) (tag_list : List Cat) :
    Option Mat :=
  constraints.foldlM (fun m cx => applyTerminalConstraint tag_list m cx) tag_probs

/-- The row produced for a constrained token: all entries `pseudo_neginf`
except entry `cat_index`, which is `0`. -/
def forcedRow (row : List ℤ) (cat_index : Nat) : List ℤ :=
  (row.map (fun _ => pseudo_neginf)).set cat_index 0

/-- `sent_size = len(sents[i].split(' '))` (`parser.pyx` line 304).  Python's
`split` with the explicit separator `' '` produces exactly one part more than
the number of separator occurrences, so the length of the split is embedded
as that count. -/
def sent_size (s : String) : Nat := s.toList.count ' ' + 1

/-- The exceptions `_parse_doc_tag_and_dep` can raise while checking input
shapes: the `RuntimeError('invalid shape of input matrices: ...')` of lines
307-310, carrying the expected and actual shapes, and the `IndexError` of
`sents[i]` when `probs` is longer than `sents`. -/
inductive ParseErr where
  | shapeMismatch (expected_tag expected_dep actual_tag actual_dep : Nat × Nat)
  | indexError
deriving DecidableEq

/-- Whether sentence/matrix pair `p` trips the shape test of line 305-306:
`(sent_size, tag_size) != py_cat_scores.shape or
(sent_size, sent_size + 1) != py_dep_scores.shape`. -/
def badShape (tag_size : Nat) (p : String × (Mat × Mat)) : Prop :=
  (sent_size p.1, tag_size) ≠ shape p.2.1 ∨
    (sent_size p.1, sent_size p.1 + 1) ≠ shape p.2.2

instance (tag_size : Nat) (p : String × (Mat × Mat)) : Decidable (badShape tag_size p) := by
  unfold badShape; infer_instance

/-- The shape-checking loop of `_parse_doc_tag_and_dep` (lines 303-310):
iterates over `enumerate(probs)`, indexing `sents[i]`, and raises
`RuntimeError` at the first shape mismatch.  The raise propagates: it aborts
the whole loop (and the whole call). -/
def checkShapes : List String → List (Mat × Mat) → Nat → Except ParseErr Unit
  | _, [], _ => .ok ()
  | [], _ :: _, _ => .error .indexError
  | s :: ss, p :: ps, tag_size =>
    if badShape tag_size (s, p) then
      .error (.shapeMismatch (sent_size s, tag_size)
        (sent_size s, sent_size s + 1) (shape p.1) (shape p.2))
    else
      checkShapes ss ps tag_size

/-- The n-best extraction loop of lines 339-343: for each sentence `i`,
collect `cres[i][j]` for `j in range(min(nbest, cres[i].size()))` — i.e.
`List.take nbest` per sentence. -/
def nbestTruncate {T : Type} (nbest : Nat) (cres : List (List (T × ℤ))) :
    List (List (T × ℤ)) :=
  cres.map (fun l => l.take nbest)

/-- `_parse_doc_tag_and_dep` (constraints-free path), abstracted over the
native `ParseSentences` result `cres`: the shape check runs first and any
`RuntimeError` it raises propagates out of the call, otherwise the
per-sentence n-best truncation of the native results is returned. -/
def parse_doc_tag_and_dep {T : Type} (sents : List String)
    (probs : List (Mat × Mat)) (tag_size nbest : Nat)
    (cres : List (List (T × ℤ))) : Except ParseErr (List (List (T × ℤ))) :=
  match checkShapes sents probs tag_size with
  | .error e => .error e
  | .ok _ => .ok (nbestTruncate nbest cres)

/-- Modelled from the spec: the native A* engine `ParseSentences`
(`include/parser.h`, not under `src/`) returns, per sentence, a scored-node
list "ordered by decreasing total score" with "no duplicates (as trees)".
This predicate captures that postcondition. -/
def SpecSortedNodup {T : Type} (l : List (T × ℤ)) : Prop :=
  l.Pairwise (fun a b => b.2 ≤ a.2 ∧ a.1 ≠ b.1)

instance {T : Type} [DecidableEq T] (l : List (T × ℤ)) :
    Decidable (SpecSortedNodup l) := by
  unfold SpecSortedNodup; infer_instance

lemma checkShapes_error_iff (tag_size : Nat) :
    ∀ (sents : List String) (probs : List (Mat × Mat)),
      sents.length = probs.length →
      ((∃ e, checkShapes sents probs tag_size = .error e) ↔
        ∃ p ∈ sents.zip probs, badShape tag_size p) := by
  intro sents
  induction sents with
  | nil =>
    intro probs hlen
    cases probs with
    | nil => simp [checkShapes]
    | cons p ps => simp at hlen
  | cons s ss ih =>
    intro probs hlen
    cases probs with
    | nil => simp at hlen
    | cons p ps =>
      simp only [List.length_cons, Nat.succ.injEq] at hlen
      by_cases hbad : badShape tag_size (s, p)
      · simp [checkShapes, hbad, List.zip_cons_cons]
      · simp only [checkShapes, List.zip_cons_cons, List.mem_cons]
        rw [if_neg hbad, ih ps hlen]
        constructor
        · rintro ⟨q, hq, hqbad⟩
          exact ⟨q, Or.inr hq, hqbad⟩
        · rintro ⟨q, hq | hq, hqbad⟩
          · subst hq; exact absurd hqbad hbad
          · exact ⟨q, hq, hqbad⟩

/-- C1 (counterexample): a batch of two sentences where only the first has a
shape mismatch.  The whole call returns the shape-mismatch error — the second
sentence, whose matrices are well-shaped, yields no result, refuting the
claim that per-sentence shape failures leave the rest of the batch intact. -/
theorem shapeMismatch_aborts_whole_batch :
    ¬ badShape 2 ("b c", ([[1, 1], [1, 1]], [[1, 1, 1], [1, 1, 1]])) ∧
    parse_doc_tag_and_dep ["a", "b c"]
        [([[1]], [[1, 1]]), ([[1, 1], [1, 1]], [[1, 1, 1], [1, 1, 1]])] 2 1
        [[((0 : Nat), (0 : ℤ))], [(0, 0)]]
      = Except.error (.shapeMismatch (1, 2) (1, 2) (1, 1) (1, 2)) := by
  exact ⟨by decide, rfl⟩

/-- C1 (amended): the call fails with a shape-mismatch error iff some sentence
of the batch has a `P_tag` matrix whose shape differs from
`(sent_len, tag_size)` or a `P_dep` matrix whose shape differs from
`(sent_len, sent_len + 1)`; the `RuntimeError` propagates out of
`_parse_doc_tag_and_dep`, so the failure aborts the entire batch (no sentence
yields a result) rather than only the offending sentence. -/
theorem parse_doc_fails_iff_some_shape_mismatch {T : Type} (sents : List String)
    (probs : List (Mat × Mat)) (tag_size nbest : Nat)
    (cres : List (List (T × ℤ))) (hlen : sents.length = probs.length) :
    (∃ e, parse_doc_tag_and_dep sents probs tag_size nbest cres = .error e) ↔
      ∃ p ∈ sents.zip probs, badShape tag_size p := by
  rw [← checkShapes_error_iff tag_size sents probs hlen]
  unfold parse_doc_tag_and_dep
  cases h : checkShapes sents probs tag_size with
  | error e => simp
  | ok u => simp

/-- C1 (witness for the amended theorem) at a concrete well-shaped batch. -/
theorem parse_doc_fails_iff_witness :
    (∃ e, parse_doc_tag_and_dep ["a"] [([[1]], [[1, 1]])] 1 1
        [[((0 : Nat), (0 : ℤ))]] = Except.error e) ↔
      ∃ p ∈ (["a"].zip [(([[1]] : Mat), ([[1, 1]] : Mat))]), badShape 1 p :=
  parse_doc_fails_iff_some_shape_mismatch ["a"] [([[1]], [[1, 1]])] 1 1
    [[((0 : Nat), (0 : ℤ))]] rfl

/-- C4: every per-sentence result list returned by the wrapper has at most
`nbest` entries and — given the spec-modelled postcondition of the native
engine — is ordered by non-increasing score and contains no duplicate
trees. -/
theorem nbest_results_sorted_nodup {T : Type} (sents : List String)
    (probs : List (Mat × Mat)) (tag_size nbest : Nat)
    (cres res : List (List (T × ℤ)))
    (hok : parse_doc_tag_and_dep sents probs tag_size nbest cres = .ok res)
    (hspec : ∀ l ∈ cres, SpecSortedNodup l) :
    ∀ r ∈ res, r.length ≤ nbest ∧ SpecSortedNodup r := by
  have hres : res = nbestTruncate nbest cres := by
    unfold parse_doc_tag_and_dep at hok
    cases h : checkShapes sents probs tag_size with
    | error e => rw [h] at hok; cases hok
    | ok u => rw [h] at hok; cases hok; rfl
  subst hres
  intro r hr
  unfold nbestTruncate at hr
  rcases List.mem_map.mp hr with ⟨l, hl, rfl⟩
  constructor
  · rw [List.length_take]
    exact Nat.min_le_left _ _
  · exact List.Pairwise.sublist (List.take_sublist _ _) (hspec l hl)

/-- C4 (witness): concrete two-candidate native result truncated to `nbest = 1`. -/
theorem nbest_results_sorted_nodup_witness :
    ([((0 : Nat), (5 : ℤ))] : List (Nat × ℤ)).length ≤ 1 ∧
      SpecSortedNodup [((0 : Nat), (5 : ℤ))] :=
  nbest_results_sorted_nodup ["a"] [([[1]], [[1, 1]])] 1 1
    [[(0, 5), (1, 3)]] [[(0, 5)]] rfl (by decide) [(0, 5)] (by decide)

lemma applyTerminalConstraint_get?_ne {Cat : Type} [DecidableEq Cat]
    (tag_list : List Cat) (m m' : Mat) (cx : Cat × Nat)
    (h : applyTerminalConstraint tag_list m cx = some m') {i : Nat}
    (hi : cx.2 ≠ i) : m'.get? i = m.get? i := by
  unfold applyTerminalConstraint at h
  cases htd : tag_dict_find tag_list cx.1 with
  | none => simp [htd] at h
  | some ci =>
    cases hrow : m[cx.2]? with
    | none => simp [htd, hrow] at h
    | some row =>
      simp only [htd, List.get?_eq_getElem?, hrow] at h
      by_cases hlt : ci < row.length
      · rw [if_pos hlt] at h
        cases h
        simp only [List.get?_eq_getElem?]
        exact List.getElem?_set_ne hi
      · rw [if_neg hlt] at h; cases h

lemma build_terminal_constraints_append {Cat : Type} [DecidableEq Cat]
    (cs1 cs2 : List (Cat × Nat)) (m : Mat) (tag_list : List Cat) :
    build_terminal_constraints (cs1 ++ cs2) m tag_list
      = (build_terminal_constraints cs1 m tag_list).bind
          (fun m1 => build_terminal_constraints cs2 m1 tag_list) := by
  induction cs1 generalizing m with
  | nil => rfl
  | cons cx cs ih =>
    have hstep : ∀ (l : List (Cat × Nat)) (mm : Mat),
        build_terminal_constraints (cx :: l) mm tag_list
          = applyTerminalConstraint tag_list mm cx >>= fun m1 =>
              build_terminal_constraints l m1 tag_list := fun _ _ => rfl
    rw [List.cons_append, hstep, hstep]
    cases h : applyTerminalConstraint tag_list m cx with
    | none => rfl
    | some m1 => exact ih m1

/-- C10: `build_terminal_constraints` leaves every row whose index is not the
token index of some constraint unchanged.  (The numpy matrix is mutated in
place and returned; the embedding passes the matrix state explicitly, so the
returned matrix is the mutated input.) -/
theorem build_terminal_constraints_frame {Cat : Type} [DecidableEq Cat]
    (cs : List (Cat × Nat)) (m m' : Mat) (tag_list : List Cat)
    (h : build_terminal_constraints cs m tag_list = some m') (i : Nat)
    (hi : ∀ cx ∈ cs, cx.2 ≠ i) : m'.get? i = m.get? i := by
  induction cs generalizing m with
  | nil =>
    cases h
    rfl
  | cons cx cs ih =>
    have hstep : build_terminal_constraints (cx :: cs) m tag_list
        = applyTerminalConstraint tag_list m cx >>= fun m1 =>
            build_terminal_constraints cs m1 tag_list := rfl
    rw [hstep] at h
    cases h1 : applyTerminalConstraint tag_list m cx with
    | none => rw [h1] at h; cases h
    | some m1 =>
      rw [h1] at h
      have hrest := ih m1 h (fun q hq => hi q (List.mem_cons_of_mem _ hq))
      rw [hrest]
      exact applyTerminalConstraint_get?_ne tag_list m m1 cx h1
        (hi cx (List.mem_cons_self _ _))

/-- C10 (witness): a two-row matrix with a single constraint on row 1 keeps
row 0 unchanged. -/
theorem build_terminal_constraints_frame_witness :
    ([[(-7 : ℤ), -8], [0, pseudo_neginf]] : Mat).get? 0
      = ([[-7, -8], [-1, -2]] : Mat).get? 0 :=
  build_terminal_constraints_frame [((0 : Nat), 1)] [[-7, -8], [-1, -2]]
    [[-7, -8], [0, pseudo_neginf]] [0, 1] (by decide) 0 (by decide)

/-- C2 (counterexample): with tag list `[0, 1]` and the terminal constraint
`(0, 0)` applied to the one-row matrix `[[-1, -2]]`, the non-constrained
column of row 0 is set to `-10e10 = -10^11`, which differs from the `-10^10`
the claim states. -/
theorem terminal_constraint_neginf_counterexample :
    build_terminal_constraints [((0 : Nat), 0)] [[-1, -2]] [0, 1]
        = some [[0, -(10 ^ 11)]] ∧ ((-(10 ^ 11) : ℤ) ≠ -(10 ^ 10)) :=
  ⟨by decide, by decide⟩

/-- C2 (amended): applying a terminal constraint `(c, i)` (as the last
constraint touching row `i`) rewrites row `i` so that the constrained
category's column holds lexical score `0` and every other column holds
`pseudo_neginf = -10e10 = -10^11`, making `c` the unique maximal candidate at
token `i`. -/
theorem terminal_constraint_forces_row {Cat : Type} [DecidableEq Cat]
    (cs : List (Cat × Nat)) (c : Cat) (i : Nat) (m m1 : Mat)
    (tag_list : List Cat) (row : List ℤ) (ci : Nat)
    (h1 : build_terminal_constraints cs m tag_list = some m1)
    (h2 : tag_dict_find tag_list c = some ci)
    (h3 : m1.get? i = some row)
    (h4 : ci < row.length) :
    build_terminal_constraints (cs ++ [(c, i)]) m tag_list
        = some (m1.set i (forcedRow row ci)) ∧
      ∀ j < row.length,
        (forcedRow row ci).get? j
          = some (if j = ci then 0 else pseudo_neginf) := by
  have happly : applyTerminalConstraint tag_list m1 (c, i)
      = some (m1.set i (forcedRow row ci)) := by
    unfold applyTerminalConstraint forcedRow
    simp only [h2, List.get?_eq_getElem?] at h3 ⊢
    simp [h3, h4]
  constructor
  · rw [build_terminal_constraints_append, h1]
    show build_terminal_constraints [(c, i)] m1 tag_list = _
    have hsingle : build_terminal_constraints [(c, i)] m1 tag_list
        = applyTerminalConstraint tag_list m1 (c, i) >>= fun b => pure b := rfl
    rw [hsingle, happly]
    rfl
  · intro j hj
    unfold forcedRow
    by_cases hji : j = ci
    · subst hji
      rw [if_pos rfl, List.get?_eq_getElem?]
      exact List.getElem?_set_eq_of_lt 0 (by simpa using h4)
    · rw [if_neg hji, List.get?_eq_getElem?,
        List.getElem?_set_ne (fun he => hji he.symm), List.getElem?_map,
        List.getElem?_eq_getElem hj]
      rfl

/-- C2 (witness for the amended theorem): concrete one-row matrix, tag list
`[0, 1]`, constraint `(0, 0)`. -/
theorem terminal_constraint_forces_row_witness :
    build_terminal_constraints [((0 : Nat), 0)] [[-1, -2]] [0, 1]
        = some (([[-1, -2]] : Mat).set 0 (forcedRow [-1, -2] 0)) ∧
      ∀ j < ([-1, -2] : List ℤ).length,
        (forcedRow [-1, -2] 0).get? j
          = some (if j = 0 then 0 else pseudo_neginf) :=
  terminal_constraint_forces_row [] 0 0 [[-1, -2]] [[-1, -2]] [0, 1] [-1, -2] 0
    rfl (by decide) rfl (by decide)

/-- The value held by a parser's `possible_root_cats` attribute: the
Category-parsed list written at `parser.pyx` lines 85-86 / 388-389, or the
raw (string-or-Category) list written at line 401. -/
inductive RootCatsVal (Cat : Type) where
  | parsed (l : List Cat)
  | raw (l : List (String ⊕ Cat))

/-- `Category.parse(cat) if not isinstance(cat, Category) else cat`:
arguments may mix raw strings and already-parsed categories. -/
def parseIfNeeded {Cat : Type} (parse : String → Cat) : String ⊕ Cat → Cat
  | .inl s => parse s
  | .inr c => c

/-- Default value of `possible_root_cats` in `EnglishCCGParser.__init__`
(line 84). -/
def en_default_root_cat_strs : List String :=
  ["S[dcl]", "S[wq]", "S[q]", "S[qem]", "NP"]

/-- Default value of `possible_root_cats` in `JapaneseCCGParser.__init__`
(lines 369-386). -/
def ja_default_root_cat_strs : List String :=
  ["NP[case=nc,mod=nm,fin=f]",
   "NP[case=nc,mod=nm,fin=t]",
   "S[mod=nm,form=attr,fin=t]",
   "S[mod=nm,form=base,fin=f]",
   "S[mod=nm,form=base,fin=t]",
   "S[mod=nm,form=cont,fin=f]",
   "S[mod=nm,form=cont,fin=t]",
   "S[mod=nm,form=da,fin=f]",
   "S[mod=nm,form=da,fin=t]",
   "S[mod=nm,form=hyp,fin=t]",
   "S[mod=nm,form=imp,fin=f]",
   "S[mod=nm,form=imp,fin=t]",
   "S[mod=nm,form=r,fin=t]",
   "S[mod=nm,form=s,fin=t]",
   "S[mod=nm,form=stem,fin=f]",
   "S[mod=nm,form=stem,fin=t]"]

/-- The attribute state of a `cdef class EnglishCCGParser` object: exactly
the fifteen attributes declared at `parser.pyx` lines 51-65.  `max_steps` is
NOT among them, although `__init__` assigns it (line 98 / line 403) and
`_parse_doc_tag_and_dep` reads it (line 279).  Before `__init__` runs every
attribute is Python `None`, embedded as `Option` fields that are `none` in
`ParserState.blank`.  The grammar-table payloads (`category_dict`,
`tag_list`, `unary_rules`, `seen_rules`, `binary_rules`) are opaque type
parameters: `__init__` only stores them. -/
structure ParserState (Cat CD TL UR SR BR : Type) where
  binary_rules : Option BR
  possible_root_cats : Option (RootCatsVal Cat)
  category_dict : Option CD
  tag_list : Option TL
  unary_rules : Option UR
  seen_rules : Option SR
  beta : Option ℚ
  use_beta : Option Bool
  use_category_dict : Option Bool
  use_seen_rules : Option Bool
  pruning_size : Option Nat
  nbest : Option Nat
  max_length : Option Nat
  tagger : Option Unit
  lang : Option String

/-- A freshly allocated parser object, before `__init__`. -/
def ParserState.blank {Cat CD TL UR SR BR : Type} : ParserState Cat CD TL UR SR BR :=
  ⟨none, none, none, none, none, none, none, none,
   none, none, none, none, none, none, none⟩

/-- The `AttributeError` a `cdef` extension class raises on assignment to an
attribute it does not declare: a `cdef class` has no `__dict__`, so
`self.max_steps = ...` cannot succeed when `max_steps` is missing from the
class declarations. -/
inductive InitErr where
  | attributeError (attr : String)
deriving DecidableEq

/-- The attribute state `EnglishCCGParser.__init__` has built just before
line 98: the straight-line assignments of `parser.pyx` lines 82-97.  `parse`
embeds `Category.parse` and `en_default_binary_rules` the imported default
rule table; the `binary_rules or en_default_binary_rules` of line 82 is
embedded on the `None` case of the optional argument. -/
def EnglishCCGParser_init_state {Cat CD TL UR SR BR : Type} (parse : String → Cat)
    (en_default_binary_rules : BR)
    (category_dict : CD) (tag_list : TL) (unary_rules : UR) (seen_rules : SR)
    (binary_rules : Option BR) (beta : ℚ) (use_beta : Bool)
    (use_category_dict : Bool) (use_seen_rules : Bool)
    (pruning_size nbest : Nat)
    (possible_root_cats : Option (List (String ⊕ Cat)))
    (max_length : Nat) : ParserState Cat CD TL UR SR BR :=
  let self : ParserState Cat CD TL UR SR BR := ParserState.blank
  let self := { self with binary_rules := some (binary_rules.getD en_default_binary_rules) }
  let possible_root_cats :=
    possible_root_cats.getD (en_default_root_cat_strs.map Sum.inl)
  let self := { self with possible_root_cats := some (.parsed (possible_root_cats.map (parseIfNeeded parse))) }
  let self := { self with category_dict := some category_dict }
  let self := { self with tag_list := some tag_list }
  let self := { self with unary_rules := some unary_rules }
  let self := { self with seen_rules := some seen_rules }
  let self := { self with beta := some beta }
  let self := { self with use_beta := some use_beta }
  let self := { self with use_category_dict := some use_category_dict }
  let self := { self with use_seen_rules := some use_seen_rules }
  let self := { self with pruning_size := some pruning_size }
  let self := { self with nbest := some nbest }
  let self := { self with max_length := some max_length }
  self

/-- `EnglishCCGParser.__init__` (`parser.pyx` lines 67-100): the assignments
of lines 82-97 run (their effect is `EnglishCCGParser_init_state`), then
line 98 `self.max_steps = max_steps` raises `AttributeError` because
`max_steps` is not a declared attribute of the cdef class (lines 51-65);
lines 99-100 are unreachable and the constructor never returns an object. -/
def EnglishCCGParser_init {Cat CD TL UR SR BR : Type} (parse : String → Cat)
    (en_default_binary_rules : BR)
    (category_dict : CD) (tag_list : TL) (unary_rules : UR) (seen_rules : SR)
    (binary_rules : Option BR) (beta : ℚ) (use_beta : Bool)
    (use_category_dict : Bool) (use_seen_rules : Bool)
    (pruning_size nbest : Nat)
    (possible_root_cats : Option (List (String ⊕ Cat)))
    (max_length max_steps : Nat) : Except InitErr (ParserState Cat CD TL UR SR BR) :=
  let _self := EnglishCCGParser_init_state parse en_default_binary_rules
    category_dict tag_list unary_rules seen_rules binary_rules beta use_beta
    use_category_dict use_seen_rules pruning_size nbest possible_root_cats
    max_length
  Except.error (InitErr.attributeError "max_steps")

/-- The attribute state `JapaneseCCGParser.__init__` has built just before
line 403: the straight-line assignments of `parser.pyx` lines 366-402 —
including the conditional assignment of `ja_default_binary_rules` at lines
366-367 that line 394 later overwrites with the raw argument, and the parsed
root-category list of lines 388-389 that line 401 later overwrites with the
raw local list. -/
def JapaneseCCGParser_init_state {Cat CD TL UR SR BR : Type} (parse : String → Cat)
    (ja_default_binary_rules : BR)
    (category_dict : CD) (tag_list : TL) (unary_rules : UR) (seen_rules : SR)
    (binary_rules : Option BR) (beta : ℚ) (use_beta : Bool)
    (use_category_dict : Bool) (use_seen_rules : Bool)
    (pruning_size nbest : Nat)
    (possible_root_cats : Option (List (String ⊕ Cat)))
    (max_length : Nat) : ParserState Cat CD TL UR SR BR :=
  let self : ParserState Cat CD TL UR SR BR := ParserState.blank
  let self := match binary_rules with
    | none => { self with binary_rules := some ja_default_binary_rules }
    | some _ => self
  let possible_root_cats :=
    possible_root_cats.getD (ja_default_root_cat_strs.map Sum.inl)
  let self := { self with possible_root_cats := some (.parsed (possible_root_cats.map (parseIfNeeded parse))) }
  let self := { self with category_dict := some category_dict }
  let self := { self with tag_list := some tag_list }
  let self := { self with unary_rules := some unary_rules }
  let self := { self with seen_rules := some seen_rules }
  let self := { self with binary_rules := binary_rules }
  let self := { self with beta := some beta }
  let self := { self with use_beta := some use_beta }
  let self := { self with use_category_dict := some use_category_dict }
  let self := { self with use_seen_rules := some use_seen_rules }
  let self := { self with pruning_size := some pruning_size }
  let self := { self with nbest := some nbest }
  let self := { self with possible_root_cats := some (.raw possible_root_cats) }
  let self := { self with max_length := some max_length }
  self

/-- `JapaneseCCGParser.__init__` (`parser.pyx` lines 350-405): the
assignments of lines 366-402 run (their effect is
`JapaneseCCGParser_init_state`), then line 403 `self.max_steps = max_steps`
raises `AttributeError` (`max_steps` is not a declared attribute, lines
51-65); lines 404-405 are unreachable and the constructor never returns an
object. -/
def JapaneseCCGParser_init {Cat CD TL UR SR BR : Type} (parse : String → Cat)
    (ja_default_binary_rules : BR)
    (category_dict : CD) (tag_list : TL) (unary_rules : UR) (seen_rules : SR)
    (binary_rules : Option BR) (beta : ℚ) (use_beta : Bool)
    (use_category_dict : Bool) (use_seen_rules : Bool)
    (pruning_size nbest : Nat)
    (possible_root_cats : Option (List (String ⊕ Cat)))
    (max_length max_steps : Nat) : Except InitErr (ParserState Cat CD TL UR SR BR) :=
  let _self := JapaneseCCGParser_init_state parse ja_default_binary_rules
    category_dict tag_list unary_rules seen_rules binary_rules beta use_beta
    use_category_dict use_seen_rules pruning_size nbest possible_root_cats
    max_length
  Except.error (InitErr.attributeError "max_steps")

/-- Lines 99-100 (English) and 404-405 (Japanese), textually identical in
the source: `self.tagger = None` then `self.lang = b'en'`.  In the source as
given both pairs are unreachable — the `self.max_steps` assignment
immediately before them raises `AttributeError`. -/
def init_tail {Cat CD TL UR SR BR : Type} (self : ParserState Cat CD TL UR SR BR) :
    ParserState Cat CD TL UR SR BR :=
  let self := { self with tagger := none }
  let self := { self with lang := some "en" }
  self

/-- C3 (code-bug evaluation): `JapaneseCCGParser.__init__` raises
`AttributeError` at line 403 (`self.max_steps = max_steps`, with `max_steps`
not among the attributes declared at lines 51-65), so no parser object is
ever constructed; at the point of the fault the object's `binary_rules` has
already been overwritten to `None` by line 394 (when the argument is `None`)
and its `possible_root_cats` to the raw argument-or-default list by line
401 — exactly the overwrites the claim describes. -/
theorem japanese_init_overwrites {Cat CD TL UR SR BR : Type}
    (parse : String → Cat) (jadef : BR) (cd : CD) (tl : TL) (ur : UR) (sr : SR)
    (beta : ℚ) (ub ucd usr : Bool) (ps nb : Nat)
    (prc : Option (List (String ⊕ Cat))) (ml ms : Nat) :
    JapaneseCCGParser_init parse jadef cd tl ur sr none beta ub ucd usr
        ps nb prc ml ms
      = Except.error (InitErr.attributeError "max_steps") ∧
    (JapaneseCCGParser_init_state parse jadef cd tl ur sr none beta ub ucd usr
        ps nb prc ml).binary_rules = none ∧
    ∀ br : Option BR,
      (JapaneseCCGParser_init_state parse jadef cd tl ur sr br beta ub ucd usr
          ps nb prc ml).possible_root_cats
        = some (.raw (prc.getD (ja_default_root_cat_strs.map Sum.inl))) := by
  exact ⟨rfl, rfl, fun br => by cases br <;> rfl⟩

/-- C6 (code-bug evaluation): `JapaneseCCGParser.__init__` faults at line
403, before the `lang` assignment of line 405, so no constructed Japanese
parser ever carries a language tag — at the fault the attribute is still
`None` (and `EnglishCCGParser.__init__` likewise faults at line 98 before
its line 100).  The unreachable trailing assignments of lines 404-405 are
the same `tagger`/`lang = b'en'` pair as the English lines 99-100: had
`max_steps` been declared, the Japanese parser would carry the English tag
`b'en'` exactly as the claim states. -/
theorem japanese_lang_tag_is_english {Cat CD TL UR SR BR : Type}
    (parse : String → Cat) (jadef endef : BR) (cd : CD) (tl : TL) (ur : UR)
    (sr : SR) (br : Option BR) (beta : ℚ) (ub ucd usr : Bool) (ps nb : Nat)
    (prc : Option (List (String ⊕ Cat))) (ml ms : Nat) :
    JapaneseCCGParser_init parse jadef cd tl ur sr br beta ub ucd usr
        ps nb prc ml ms
      = Except.error (InitErr.attributeError "max_steps") ∧
    (JapaneseCCGParser_init_state parse jadef cd tl ur sr br beta ub ucd usr
        ps nb prc ml).lang = none ∧
    (init_tail (JapaneseCCGParser_init_state parse jadef cd tl ur sr br beta
        ub ucd usr ps nb prc ml)).lang
      = (init_tail (EnglishCCGParser_init_state parse endef cd tl ur sr br
          beta ub ucd usr ps nb prc ml)).lang ∧
    (init_tail (JapaneseCCGParser_init_state parse jadef cd tl ur sr br beta
        ub ucd usr ps nb prc ml)).lang = some "en" := by
  refine ⟨rfl, ?_, rfl, rfl⟩
  cases br <;> rfl

/-- The call `EnglishCCGParser(category_dict, tag_list, unary_rules,
seen_rules)` with every optional argument left at its signature default
(`parser.pyx` lines 72-81): `binary_rules=None`, `beta=0.00001`,
`use_beta=True`, `use_category_dict=True`, `use_seen_rules=True`,
`pruning_size=50`, `nbest=1`, `possible_root_cats=None`, `max_length=250`,
`max_steps=100000`. -/
def EnglishCCGParser_init_default_config {Cat CD TL UR SR BR : Type}
    (parse : String → Cat) (endef : BR) (cd : CD) (tl : TL) (ur : UR)
    (sr : SR) : Except InitErr (ParserState Cat CD TL UR SR BR) :=
  EnglishCCGParser_init parse endef cd tl ur sr none (1 / 100000) true true
    true 50 1 none 250 100000

/-- The attribute state that default-configuration call has built just
before the faulting line 98. -/
def EnglishCCGParser_init_default_state {Cat CD TL UR SR BR : Type}
    (parse : String → Cat) (endef : BR) (cd : CD) (tl : TL) (ur : UR)
    (sr : SR) : ParserState Cat CD TL UR SR BR :=
  EnglishCCGParser_init_state parse endef cd tl ur sr none (1 / 100000) true
    true true 50 1 none 250

/-- C9 (code-bug evaluation): constructing `EnglishCCGParser` with the
documented defaults never completes — line 98 `self.max_steps = max_steps`
raises `AttributeError` because `max_steps` is not a declared attribute of
the cdef class (lines 51-65; the declaration is the slip, since line 279
reads `self.max_steps` back).  So the documented defaults are never the
attributes of a constructed parser; the attribute state at the fault already
holds `beta = 0.00001 = 1e-5`, `pruning_size = 50`, `nbest = 1`,
`max_length = 250`, while `max_steps = 100000` is exactly the assignment
that faults. -/
theorem english_init_default_values {Cat CD TL UR SR BR : Type}
    (parse : String → Cat) (endef : BR) (cd : CD) (tl : TL) (ur : UR)
    (sr : SR) :
    (EnglishCCGParser_init_default_config parse endef cd tl ur sr
        : Except InitErr (ParserState Cat CD TL UR SR BR))
      = Except.error (InitErr.attributeError "max_steps") ∧
    (EnglishCCGParser_init_default_state parse endef cd tl ur sr
        : ParserState Cat CD TL UR SR BR).beta = some (1 / 100000) ∧
    ((1 : ℚ) / 100000) = 1e-5 ∧
    (EnglishCCGParser_init_default_state parse endef cd tl ur sr
        : ParserState Cat CD TL UR SR BR).pruning_size = some 50 ∧
    (EnglishCCGParser_init_default_state parse endef cd tl ur sr
        : ParserState Cat CD TL UR SR BR).nbest = some 1 ∧
    (EnglishCCGParser_init_default_state parse endef cd tl ur sr
        : ParserState Cat CD TL UR SR BR).max_length = some 250 := by
  refine ⟨rfl, rfl, by norm_num [OfScientific.ofScientific], rfl, rfl, rfl⟩

/-- `preprocess = lambda cat: cat.strip_feat('[X]').strip_feat('[nb]')`
(`parser.pyx` line 154), over an abstract `strip_feat`. -/
def preprocess {Cat : Type} (strip_feat : Cat → String → Cat) (c : Cat) : Cat :=
  strip_feat (strip_feat c "[X]") "[nb]"

/-- The `seen_rules` computation of `EnglishCCGParser.from_json`
(`parser.pyx` lines 153-159): the unstripped pair list is built first and is
immediately shadowed by the rebuild that applies `preprocess` to every
parsed category; the shadowed value is what reaches the constructor. -/
def from_json_seen_rules {Cat : Type} (parse : String → Cat)
    (strip_feat : Cat → String → Cat) (entries : List (String × String)) :
    List (Cat × Cat) :=
  let seen_rules := entries.map (fun e => (parse e.1, parse e.2))
  let seen_rules := entries.map (fun e =>
    (preprocess strip_feat (parse e.1), preprocess strip_feat (parse e.2)))
  seen_rules

/-- The seen-rules list the spec prescribes for the JSON loader: one build
with features `[X]` and `[nb]` stripped from each category — as `from_files`
does once through `read_seen_rules(seen_rules, preprocess)` (line 133). -/
def from_json_seen_rules_spec {Cat : Type} (parse : String → Cat)
    (strip_feat : Cat → String → Cat) (entries : List (String × String)) :
    List (Cat × Cat) :=
  entries.map (fun e =>
    (preprocess strip_feat (parse e.1), preprocess strip_feat (parse e.2)))

/-- C5: the seen-rules list `from_json` passes to the parser constructor is
exactly the stripped build; the earlier unstripped construction is dead, so
dropping it (as the spec prescribes) yields an equivalent loader. -/
theorem from_json_seen_rules_eq_spec {Cat : Type} (parse : String → Cat)
    (strip_feat : Cat → String → Cat) (entries : List (String × String)) :
    from_json_seen_rules parse strip_feat entries
      = from_json_seen_rules_spec parse strip_feat entries := rfl

/-- Modelled from the spec: `apply_binary` of the RuleApplicator (native
code, not under `src/`): it applies the registered combinators to the two
child categories, except that when `use_seen_rules` is enabled and the
normalized category pair is not in the seen-rules set it returns the empty
list (`parser.pyx` lines 274-275 select the seen-rules set or the empty set
accordingly). -/
def apply_binary {Cat : Type} [DecidableEq Cat] (use_seen_rules : Bool)
    (seen_rules : List (Cat × Cat)) (combinators : Cat → Cat → List Cat)
    (normalized : Cat → Cat) (l r : Cat) : List Cat :=
  if use_seen_rules = true ∧ (normalized l, normalized r) ∉ seen_rules then []
  else combinators l r

/-- A CCG derivation (spec data model: Leaf, Binary, Unary): leaves carry a
token index and a category, binary nodes a parent category and two children,
unary nodes a parent category and one child. -/
inductive Deriv (Cat : Type) where
  | leaf (i : Nat) (c : Cat)
  | node (parent : Cat) (l r : Deriv Cat)
  | unary (parent : Cat) (child : Deriv Cat)
deriving DecidableEq

/-- The root category of a derivation. -/
def Deriv.cat {Cat : Type} : Deriv Cat → Cat
  | .leaf _ c => c
  | .node p _ _ => p
  | .unary p _ => p

/-- Whether the top node of a derivation is a unary rule application. -/
def Deriv.topUnary {Cat : Type} : Deriv Cat → Bool
  | .unary _ _ => true
  | .leaf _ _ => false
  | .node _ _ _ => false

/-- Modelled from the spec: the derivations the search can emit — every
binary node produced by `apply_binary` on its children's categories, every
unary node rewriting its child's category by the unary-rule table
(`apply_unary`), and no unary application immediately after another unary on
the same span.  The span bookkeeping (adjacency, root admissibility) and the
agenda are independent of `use_seen_rules`; only `apply_binary` consults
it. -/
def Admissible {Cat : Type} [DecidableEq Cat] (use_seen_rules : Bool)
    (seen_rules : List (Cat × Cat)) (combinators : Cat → Cat → List Cat)
    (normalized : Cat → Cat) (unary_rules : Cat → List Cat) : Deriv Cat → Bool
  | .leaf _ _ => true
  | .node p l r =>
    decide (p ∈ apply_binary use_seen_rules seen_rules combinators normalized
        l.cat r.cat)
      && Admissible use_seen_rules seen_rules combinators normalized
          unary_rules l
      && Admissible use_seen_rules seen_rules combinators normalized
          unary_rules r
  | .unary p c =>
    (decide (p ∈ unary_rules c.cat) && !c.topUnary)
      && Admissible use_seen_rules seen_rules combinators normalized
          unary_rules c

/-- Modelled from the spec: the n-best extraction of the native search (not
under `src/`).  The agenda pops complete parses in order of decreasing score
and the loop stops once `nbest` of them have been collected; over a finite
pool of complete scored derivations listed in decreasing-score order, the
returned list is therefore the first `nbest` admissible ones. -/
def returnedParses {Cat : Type} [DecidableEq Cat] (use_seen_rules : Bool)
    (seen_rules : List (Cat × Cat)) (combinators : Cat → Cat → List Cat)
    (normalized : Cat → Cat) (unary_rules : Cat → List Cat) (nbest : Nat)
    (pool : List (Deriv Cat × ℤ)) : List (Deriv Cat × ℤ) :=
  (pool.filter (fun p =>
    Admissible use_seen_rules seen_rules combinators normalized unary_rules
      p.1)).take nbest

/-- C8 (counterexample): with `nbest = 1` the returned parse sets are NOT
related by inclusion.  The pool holds two complete parses in score order;
the seen-rules set contains only the pair used by the worse parse.  The
filtered run returns the worse parse, which the unfiltered run (returning
only the better one) does not return. -/
theorem seen_rules_returned_not_subset :
    (Deriv.node 5 (.leaf 0 2) (.leaf 1 3), (-2 : ℤ))
        ∈ returnedParses true [((2 : Nat), 3)] (fun l r => [l + r]) id
            (fun _ => []) 1
            [(.node 1 (.leaf 0 0) (.leaf 1 1), -1),
             (.node 5 (.leaf 0 2) (.leaf 1 3), -2)] ∧
    (Deriv.node 5 (.leaf 0 2) (.leaf 1 3), (-2 : ℤ))
        ∉ returnedParses false [((2 : Nat), 3)] (fun l r => [l + r]) id
            (fun _ => []) 1
            [(.node 1 (.leaf 0 0) (.leaf 1 1), -1),
             (.node 5 (.leaf 0 2) (.leaf 1 3), -2)] :=
  ⟨by decide, by decide⟩

/-- C8 (amended): enabling the seen-rules filter can only remove, never add,
admissible parses: every derivation (binary and unary nodes alike)
admissible with `use_seen_rules` enabled is admissible with it disabled.
The n-best returned lists themselves need not be subsets — see the
counterexample. -/
theorem seen_rules_filter_monotone {Cat : Type} [DecidableEq Cat]
    (seen_rules : List (Cat × Cat)) (combinators : Cat → Cat → List Cat)
    (normalized : Cat → Cat) (unary_rules : Cat → List Cat) (t : Deriv Cat)
    (h : Admissible true seen_rules combinators normalized unary_rules t
      = true) :
    Admissible false seen_rules combinators normalized unary_rules t
      = true := by
  induction t with
  | leaf i c => rfl
  | node p l r ihl ihr =>
    simp only [Admissible, Bool.and_eq_true, decide_eq_true_eq] at h ⊢
    obtain ⟨⟨hp, hl⟩, hr⟩ := h
    refine ⟨⟨?_, ihl hl⟩, ihr hr⟩
    have hfalse : apply_binary false seen_rules combinators normalized
        l.cat r.cat = combinators l.cat r.cat := by
      unfold apply_binary
      rw [if_neg]
      rintro ⟨hc, -⟩
      cases hc
    rw [hfalse]
    unfold apply_binary at hp
    by_cases hseen : (normalized l.cat, normalized r.cat) ∈ seen_rules
    · rwa [if_neg (fun hc => hc.2 hseen)] at hp
    · rw [if_pos ⟨rfl, hseen⟩] at hp
      exact absurd hp (List.not_mem_nil p)
  | unary p c ihc =>
    simp only [Admissible, Bool.and_eq_true] at h ⊢
    obtain ⟨⟨hp, hnu⟩, hc⟩ := h
    exact ⟨⟨hp, hnu⟩, ihc hc⟩

/-- C8 (witness for the amended theorem): a concrete derivation with both a
binary and a unary node, admissible under the enabled filter, is admissible
with the filter disabled. -/
theorem seen_rules_filter_monotone_witness :
    Admissible false [((0 : Nat), 1)] (fun l r => [l + r]) id
      (fun c => [c + 6]) (.unary 7 (.node 1 (.leaf 0 0) (.leaf 1 1)))
      = true :=
  seen_rules_filter_monotone [((0 : Nat), 1)] (fun l r => [l + r]) id
    (fun c => [c + 6]) (.unary 7 (.node 1 (.leaf 0 0) (.leaf 1 1)))
    (by decide)

end Depccg

namespace Depccg

example : tag_dict_find [10, 20, 10] 10 = some 2 := by decide

example : build_terminal_constraints [((0 : Nat), 0)] [[-1, -2]] [0, 1]
    = some [[0, pseudo_neginf]] := by decide

example : checkShapes ["a b"] [([[1, 1], [1, 1]], [[1, 1, 1], [1, 1, 1]])] 2
    = .ok () := by rfl

end Depccg
